import Mathlib

/-!
Verification development for the batch image-generation orchestrator of the
nano_banana_webui repository.

The repository contains two revisions of the orchestrator:
one in src/services/geminiService.ts (called V1 below) and one in
src/unnamed/part_002 (called V2 below).  Both export a function
generateFusedImages that drives count sequential calls to an external
image-transform operation; part_002 additionally exports a batch
generateAdjustedImages.  The two revisions differ in their failure handling,
temperature tables and seed computation; each is embedded separately and
every theorem names the revision it is about.

JavaScript strings that travel through encodeURIComponent and
decodeURIComponent are modelled at the byte level: a string is the list of
its UTF-8 bytes (type Str).  This is faithful because encodeURIComponent
percent-encodes exactly the non-unreserved UTF-8 bytes of its argument, one
by one, and decodeURIComponent inverts that byte-by-byte on every string
encodeURIComponent can produce.  Prompt text, which is only concatenated and
never URI-encoded, is modelled with ordinary Lean strings.

Floating-point temperatures are modelled as exact rationals; every literal
appearing in the source (0.4, 0.2, ...) is exactly representable and the
claims about them (the ramp formula, monotonicity, tier ordering) are
robust under this reading.
-/

namespace NanoBanana

/-- Byte strings: a JavaScript string is modelled as the list of its UTF-8
bytes, each a natural number below 256. -/
abbrev Str := List Nat

/-- Bytes of the error delimiter "#error=" that both orchestrator revisions
append between a placeholder URI and the URL-encoded error message
(src/unnamed/part_002 lines 612 and 616). -/
def errTag : Str := [35, 101, 114, 114, 111, 114, 61]

/-- Bytes of the data-URI scheme marker "data:" used by successful results
(src/services/geminiService.ts line 227). -/
def dataPrefixBytes : Str := [100, 97, 116, 97, 58]

/-- Bytes of the base64 marker ";base64," inside a successful data URI. -/
def base64Marker : Str := [59, 98, 97, 115, 101, 54, 52, 44]

/-- Bytes of the default message substituted when a caught error has an
empty message (the JavaScript expression error.message or-else the literal
for unknown error, src/unnamed/part_002 line 608). -/
def unknownErrMsg : Str := [230, 156, 170, 231, 159, 165, 233, 148, 153, 232, 175, 175]

/-- Bytes of the fallback message the fusion panel substitutes when
decodeURIComponent throws (src/components/FusionPanel.tsx line 352). -/
def genFailedMsg : Str := [231, 148, 159, 230, 136, 144, 229, 164, 177, 232, 180, 165]

/-- Bytes of the batch-entirely-failed error message thrown when the results
list is empty after the loop (src/unnamed/part_002 line 627). -/
def batchFailedMsg : Str := [230, 137, 128, 230, 156, 137, 229, 155, 190, 231, 137, 135, 231, 148, 159, 230, 136, 144, 233, 131, 189, 229, 164, 177, 232, 180, 165, 228, 186, 134]

/-- Bytes of the prefix of the per-item failure progress message
(src/unnamed/part_002 line 616). -/
def imgPrefixBytes : Str := [229, 155, 190, 231, 137, 135, 32]

/-- Bytes of the middle part of the per-item failure progress message. -/
def failMidBytes : Str := [32, 229, 164, 177, 232, 180, 165, 58, 32]

/-- Bytes of the hardcoded 1x1 transparent pixel data URI used when the
placeholder asset itself cannot be fetched (src/unnamed/part_002 line 600). -/
def fallbackPixel : Str := [100, 97, 116, 97, 58, 105, 109, 97, 103, 101, 47, 112, 110, 103, 59, 98, 97, 115, 101, 54, 52, 44, 105, 86, 66, 79, 82, 119, 48, 75, 71, 103, 111, 65, 65, 65, 65, 78, 83, 85, 104, 69, 85, 103, 65, 65, 65, 65, 69, 65, 65, 65, 65, 66, 67, 65, 89, 65, 65, 65, 65, 102, 70, 99, 83, 74, 65, 65, 65, 65, 68, 85, 108, 69, 81, 86, 82, 52, 50, 109, 78, 107, 89, 80, 104, 102, 68, 119, 65, 67, 104, 119, 71, 65, 54, 48, 101, 54, 107, 103, 65, 65, 65, 65, 66, 74, 82, 85, 53, 69, 114, 107, 74, 103, 103, 103, 61, 61]

/-- Decimal representation of a natural number as ASCII bytes, modelling
JavaScript number-to-string interpolation inside template literals. -/
def natBytes (n : Nat) : Str := (Nat.repr n).data.map Char.toNat

/-- The characters encodeURIComponent leaves unescaped: ASCII letters,
digits, and - _ . ! ~ * quote ( ). -/
def unreservedByte (b : Nat) : Bool :=
  (65 ≤ b && b ≤ 90) || (97 ≤ b && b ≤ 122) || (48 ≤ b && b ≤ 57) ||
  b == 45 || b == 46 || b == 95 || b == 126 || b == 33 || b == 42 ||
  b == 39 || b == 40 || b == 41

/-- Upper-case hexadecimal digit of a nibble, as an ASCII byte. -/
def hexDigit (n : Nat) : Nat := if n < 10 then 48 + n else 55 + n

/-- Percent-encoding of a single byte: unreserved bytes pass through,
every other byte becomes a percent sign and two hex digits. -/
def encodeByte (b : Nat) : Str :=
  if unreservedByte b then [b] else [37, hexDigit (b / 16), hexDigit (b % 16)]

/-- Byte-level model of the JavaScript builtin encodeURIComponent:
every non-unreserved UTF-8 byte of the argument is percent-encoded. -/
def encodeURIComponentB (s : Str) : Str := s.flatMap encodeByte

/-- Numeric value of an ASCII hexadecimal digit. -/
def hexVal (c : Nat) : Option Nat :=
  if 48 ≤ c ∧ c ≤ 57 then some (c - 48)
  else if 65 ≤ c ∧ c ≤ 70 then some (c - 55)
  else if 97 ≤ c ∧ c ≤ 102 then some (c - 87)
  else none

/-- Byte-level model of the JavaScript builtin decodeURIComponent:
percent sequences are decoded back to bytes, everything else passes
through; a malformed percent sequence yields none (the builtin throws). -/
def decodeURIComponentB : Str → Option Str
  | [] => some []
  | b :: rest =>
    if b = 37 then
      match rest with
      | h :: l :: rest2 =>
        match hexVal h, hexVal l with
        | some a, some v => (decodeURIComponentB rest2).map (fun r => (16 * a + v) :: r)
        | _, _ => none
      | _ => none
    else (decodeURIComponentB rest).map (fun r => b :: r)

theorem hexVal_hexDigit (n : Nat) (h : n < 16) : hexVal (hexDigit n) = some n := by
  interval_cases n <;> rfl

theorem decodeB_cons_ne (b : Nat) (l : Str) (h : b ≠ 37) :
    decodeURIComponentB (b :: l) = (decodeURIComponentB l).map (fun r => b :: r) := by
  rw [decodeURIComponentB.eq_def]
  simp only [if_neg h]

theorem decodeB_pct (hd ld : Nat) (rest : Str) (a v : Nat)
    (hh : hexVal hd = some a) (hl : hexVal ld = some v) :
    decodeURIComponentB (37 :: hd :: ld :: rest) =
      (decodeURIComponentB rest).map (fun r => (16 * a + v) :: r) := by
  rw [decodeURIComponentB.eq_def]
  simp only [if_pos rfl, hh, hl, if_true, eq_self_iff_true]

theorem unreservedByte_ne_37 (b : Nat) (h : unreservedByte b = true) : b ≠ 37 := by
  intro hb
  subst hb
  simp [unreservedByte] at h

/-- Decoding inverts encoding, byte by byte. -/
theorem decode_encode (s : Str) (h : ∀ b ∈ s, b < 256) :
    decodeURIComponentB (encodeURIComponentB s) = some s := by
  induction s with
  | nil => rfl
  | cons b rest ih =>
    have hb : b < 256 := h b (List.mem_cons_self b rest)
    have hrest : ∀ x ∈ rest, x < 256 := fun x hx => h x (List.mem_cons_of_mem b hx)
    show decodeURIComponentB (encodeByte b ++ encodeURIComponentB rest) = some (b :: rest)
    by_cases hu : unreservedByte b = true
    · have h37 : b ≠ 37 := unreservedByte_ne_37 b hu
      rw [show encodeByte b = [b] from if_pos hu, List.cons_append, List.nil_append,
        decodeB_cons_ne b _ h37, ih hrest]
      rfl
    · have hhi : b / 16 < 16 := Nat.div_lt_of_lt_mul (by omega)
      have hlo : b % 16 < 16 := Nat.mod_lt b (by omega)
      rw [show encodeByte b = [37, hexDigit (b / 16), hexDigit (b % 16)] from if_neg hu]
      rw [List.cons_append, List.cons_append, List.cons_append, List.nil_append]
      rw [decodeB_pct _ _ _ _ _ (hexVal_hexDigit _ hhi) (hexVal_hexDigit _ hlo), ih hrest]
      rw [Nat.div_add_mod]
      rfl

/-- The encoder never produces the byte 35, the hash sign: unreserved bytes
are never 35 (35 is not in the unreserved set) and escape sequences consist
of the percent sign and hex digits. -/
theorem not_mem_encode_35 (s : Str) : 35 ∉ encodeURIComponentB s := by
  intro hmem
  rw [encodeURIComponentB, List.mem_flatMap] at hmem
  obtain ⟨b, -, hb⟩ := hmem
  rw [encodeByte] at hb
  by_cases hu : unreservedByte b = true
  · rw [if_pos hu] at hb
    rw [List.mem_singleton] at hb
    subst hb
    simp [unreservedByte] at hu
  · rw [if_neg hu] at hb
    have hd : ∀ n, hexDigit n ≠ 35 := by
      intro n
      rw [hexDigit]
      split <;> omega
    simp only [List.mem_cons, List.not_mem_nil, or_false] at hb
    rcases hb with h | h | h
    · omega
    · exact hd _ h.symm
    · exact hd _ h.symm

/-- Boolean test that the first argument is an initial segment of the
second, modelling the scan used to locate a substring. -/
def beginsWith : Str → Str → Bool
  | [], _ => true
  | _ :: _, [] => false
  | p :: ps, b :: bs => p == b && beginsWith ps bs

theorem beginsWith_append_self (p r : Str) : beginsWith p (p ++ r) = true := by
  induction p with
  | nil => rfl
  | cons a ps ih => simp [beginsWith, ih]

/-- Index of the first occurrence of the "#error=" delimiter in a byte
string, modelling the search that String.prototype.split performs. -/
def findTag : Str → Option Nat
  | [] => none
  | b :: rest =>
    if beginsWith errTag (b :: rest) then some 0 else (findTag rest).map Nat.succ

theorem findTag_none (s : Str) (h : 35 ∉ s) : findTag s = none := by
  induction s with
  | nil => rfl
  | cons b rest ih =>
    have hb : b ≠ 35 := fun hb => h (hb ▸ List.mem_cons_self b rest)
    have hbw : beginsWith errTag (b :: rest) = false := by
      rw [errTag, beginsWith]
      rw [show ((35 : Nat) == b) = false from beq_false_of_ne (fun hx => hb hx.symm)]
      rfl
    rw [findTag, hbw, if_neg (by simp), ih (fun hx => h (List.mem_cons_of_mem b hx))]
    rfl

theorem findTag_append (u e : Str) (hu : 35 ∉ u) :
    findTag (u ++ errTag ++ e) = some u.length := by
  induction u with
  | nil =>
    rw [List.nil_append]
    rw [show errTag ++ e = 35 :: ([101, 114, 114, 111, 114, 61] ++ e) from rfl]
    rw [findTag]
    rw [show beginsWith errTag (35 :: ([101, 114, 114, 111, 114, 61] ++ e)) = true from
      beginsWith_append_self errTag e]
    rfl
  | cons b rest ih =>
    have hb : b ≠ 35 := fun hb => hu (hb ▸ List.mem_cons_self b rest)
    have hbw : beginsWith errTag (b :: (rest ++ errTag ++ e)) = false := by
      rw [errTag, beginsWith]
      rw [show ((35 : Nat) == b) = false from beq_false_of_ne (fun hx => hb hx.symm)]
      rfl
    rw [List.cons_append, List.cons_append, findTag, hbw, if_neg (by simp)]
    rw [ih (fun hx => hu (List.mem_cons_of_mem b hx))]
    rfl

/-- Fuel-driven splitter on the "#error=" delimiter, modelling
String.prototype.split with that separator; the fuel is always sufficient
because the separator is nonempty. -/
def splitTagGo : Nat → Str → List Str
  | 0, s => [s]
  | fuel + 1, s =>
    match findTag s with
    | none => [s]
    | some i => s.take i :: splitTagGo fuel (s.drop (i + errTag.length))

/-- Model of result.split on the "#error=" delimiter. -/
def splitTag (s : Str) : List Str := splitTagGo (s.length + 1) s

theorem splitTagGo_none (s : Str) (f : Nat) (h : findTag s = none) :
    splitTagGo (f + 1) s = [s] := by
  rw [splitTagGo, h]

theorem splitTagGo_some (f : Nat) (s : Str) (i : Nat) (h : findTag s = some i) :
    splitTagGo (f + 1) s = s.take i :: splitTagGo f (s.drop (i + errTag.length)) := by
  rw [splitTagGo, h]

/-- Splitting a string with exactly one delimiter occurrence returns the
part before and the part after. -/
theorem splitTag_unique (u e : Str) (hu : 35 ∉ u) (he : 35 ∉ e) :
    splitTag (u ++ errTag ++ e) = [u, e] := by
  have hlen : (u ++ errTag ++ e).length = u.length + 7 + e.length := by
    simp [errTag]
    omega
  rw [splitTag, hlen]
  rw [splitTagGo_some _ _ _ (findTag_append u e hu)]
  have htake : (u ++ errTag ++ e).take u.length = u := by
    rw [List.append_assoc, List.take_left]
  have hdrop : (u ++ errTag ++ e).drop (u.length + errTag.length) = e := by
    rw [show u.length + errTag.length = (u ++ errTag).length by simp]
    exact List.drop_left (u ++ errTag) e
  rw [htake, hdrop]
  have hfe : findTag e = none := findTag_none e he
  rw [show u.length + 7 + e.length = (u.length + 6 + e.length) + 1 by omega]
  rw [splitTagGo_none e _ hfe]

/-- Result of the fusion panel inspecting a slot of the returned list
(src/components/FusionPanel.tsx lines 341 to 354): the includes test on
"#error=" classifies the slot, a tagged slot is split into the image URI
and the decoded message, and a slot that fails to decode gets the literal
fallback message. -/
structure ParsedSlot where
  isErrorSlot : Bool
  imageUrl : Str
  errorMessage : Str
  deriving DecidableEq, Repr

/-- Model of the per-slot parsing logic of FusionPanel (AdjustmentPanel
lines 255 to 268 are the same logic with a different fallback message). -/
def parseSlot (result : Str) : ParsedSlot :=
  if (findTag result).isSome then
    let parts := splitTag result
    let iu := parts.getD 0 []
    let em :=
      match decodeURIComponentB (parts.getD 1 []) with
      | some m => m
      | none => genFailedMsg
    ⟨true, iu, em⟩
  else ⟨false, result, []⟩

/-- The tagged string both orchestrator versions push for a failed slot:
placeholder URI, then "#error=", then the URL-encoded message. -/
def tagSlot (uri msg : Str) : Str := uri ++ errTag ++ encodeURIComponentB msg

/-- Shape of every successful result returned by the transform model
(src/services/geminiService.ts line 227). -/
def dataUri (mime data : Str) : Str := dataPrefixBytes ++ mime ++ base64Marker ++ data

theorem not_mem_dataUri_35 (mime data : Str) (hm : 35 ∉ mime) (hd : 35 ∉ data) :
    35 ∉ dataUri mime data := by
  intro h
  rw [dataUri] at h
  rcases List.mem_append.mp h with h | h
  · rcases List.mem_append.mp h with h | h
    · rcases List.mem_append.mp h with h | h
      · simp [dataPrefixBytes] at h
      · exact hm h
    · simp [base64Marker] at h
  · exact hd h

theorem parseSlot_tagged (uri msg : Str) (hu : 35 ∉ uri) (hm : ∀ b ∈ msg, b < 256) :
    parseSlot (tagSlot uri msg) = ⟨true, uri, msg⟩ := by
  have hsplit := splitTag_unique uri (encodeURIComponentB msg) hu (not_mem_encode_35 msg)
  have hfind := findTag_append uri (encodeURIComponentB msg) hu
  rw [List.append_assoc] at hsplit hfind
  simp [parseSlot, tagSlot, hfind, hsplit, decode_encode msg hm]

theorem parseSlot_dataUri (mime data : Str) (hm : 35 ∉ mime) (hd : 35 ∉ data) :
    parseSlot (dataUri mime data) = ⟨false, dataUri mime data, []⟩ := by
  simp [parseSlot, findTag_none _ (not_mem_dataUri_35 mime data hm hd)]

/-- Subtle variation descriptors of the V1 orchestrator (src/services/geminiService.ts lines 338 to 347). -/
def variationsSubtleV1 : List String := [
  "standard photographic composition with natural lighting and balanced colors, maintaining photographic realism",
  "slightly warmer color temperature with gentle shadows, keeping natural photo appearance",
  "marginally enhanced contrast with soft highlights, preserving realistic photo quality",
  "delicate color grading with subtle tone adjustments, maintaining photographic authenticity",
  "refined lighting with gentle depth enhancement, keeping natural photo characteristics",
  "minor composition tweaks with natural flow, preserving realistic photographic style",
  "soft focus variations with subtle detail enhancement, maintaining photo realism",
  "gentle color harmony with minimal adjustments, keeping authentic photographic look"]
/-- Moderate variation descriptors of the V1 orchestrator (src/services/geminiService.ts lines 348 to 361). -/
def variationsModerateV1 : List String := [
  "natural outdoor full-body portrait in park or garden setting with trees and greenery background, maintaining photographic realism",
  "close-up portrait photography focusing on face and shoulders only, with shallow depth of field and natural lighting",
  "elegant standing pose with one hand on hip and confident posture against neutral background",
  "side profile view photography showing elegant silhouette from 90-degree angle with dramatic lighting",
  "single person walking pose captured in mid-step with natural stride and balanced movement",
  "back view or over-shoulder perspective showing person looking away or turning head back toward camera",
  "medium shot composition from waist up with arms and upper body clearly visible in frame",
  "overhead angle photography shot from above looking down at subject with unique bird\x27s-eye perspective",
  "three-quarter angle portrait showing face and body from 45-degree angle with natural lighting",
  "full-body portrait with arms crossed pose showing confidence and strength in composition",
  "elegant kneeling pose on one knee with upright posture and graceful positioning",
  "standing against wall or architectural element with one shoulder leaning for support"]
/-- Dramatic variation descriptors of the V1 orchestrator (src/services/geminiService.ts lines 362 to 375). -/
def variationsDramaticV1 : List String := [
  "dramatic low-angle shot looking up at subject from below with powerful perspective and strong lighting contrast",
  "artistic black and white portrait with high contrast lighting and emotional facial expression in monochrome style",
  "fashion model pose with one leg slightly forward and hands positioned elegantly at sides",
  "fashion editorial with bold geometric poses and dramatic hand gestures against minimalist background",
  "intimate close-up beauty shot focusing on eyes and facial features with soft romantic lighting",
  "urban street photography style with natural city environment and candid documentary approach",
  "artistic lying down pose photographed from interesting angle with creative composition and depth",
  "dramatic backlighting silhouette with rim lighting effect creating striking outline against bright background",
  "high-contrast studio portrait with dramatic shadow patterns across face and body",
  "elegant full-body pose with flowing fabric or clothing creating dynamic visual interest",
  "moody atmospheric portrait with dramatic chiaroscuro lighting technique and deep shadows",
  "architectural portrait using building elements or columns to frame the subject creatively"]
/-- Subtle variation descriptors of the V2 orchestrator (src/unnamed/part_002 lines 495 to 504; the adjusted-images batch at lines 323 to 332 uses the same list). -/
def variationsSubtleV2 : List String := [
  "shot from eye level with natural perspective and balanced composition in Ansel Adams documentary style",
  "captured with slight high angle for gentle flattering perspective inspired by Julia Margaret Cameron portraiture",
  "photographed with subtle low angle using Henri Cartier-Bresson\x27s decisive moment approach",
  "composed using rule of thirds with Irving Penn\x27s minimalist studio aesthetic",
  "shot with centered composition in Richard Avedon\x27s clean portrait style",
  "captured from three-quarter angle showing natural depth like Annie Leibovitz environmental portraits",
  "photographed with soft side lighting in the style of Yousuf Karsh dramatic portraiture",
  "shot with shallow depth of field focusing on main subject using Steve McCurry\x27s intimate approach"]
/-- Moderate variation descriptors of the V2 orchestrator (src/unnamed/part_002 lines 505 to 514). -/
def variationsModerateV2 : List String := [
  "captured from high angle looking down in Mario Testino\x27s fashion photography style",
  "shot from low angle with Helmut Newton\x27s powerful and provocative composition",
  "photographed from side profile showing elegant silhouette like Horst P. Horst\x27s glamour photography",
  "composed with diagonal lines using Vivian Maier\x27s street photography dynamic framing",
  "shot with off-center framing inspired by Diane Arbus\x27s unconventional portrait approach",
  "captured with environmental framing using Gordon Parks\x27s documentary storytelling method",
  "photographed from behind with subject looking back in the style of Saul Leiter\x27s intimate moments",
  "shot with foreground elements creating depth like Gregory Crewdson\x27s cinematic compositions"]
/-- Dramatic variation descriptors of the V2 orchestrator (src/unnamed/part_002 lines 515 to 524). -/
def variationsDramaticV2 : List String := [
  "captured from dramatic bird\x27s eye view in the style of Andreas Gursky\x27s architectural perspectives",
  "shot from ground level worm\x27s eye view using Alexander Rodchenko\x27s revolutionary angles",
  "photographed with strong Dutch angle inspired by László Moholy-Nagy\x27s experimental compositions",
  "composed with extreme close-up focusing on details like Richard Avedon\x27s intense portraits",
  "shot from far distance with telephoto compression using Thomas Struth\x27s large-format approach",
  "captured with wide-angle perspective in Sebastião Salgado\x27s epic documentary style",
  "photographed with strong backlighting creating silhouette like Fan Ho\x27s geometric light studies",
  "shot with subject turning around mid-motion inspired by Jacques Henri Lartigue\x27s spontaneous captures"]

/-- Variation-list lookup shared by both orchestrators: bracket lookup on the
intensity key, falling back to the moderate list for unrecognized keys. -/
def variationsV1 (intensity : String) : List String :=
  if intensity = "subtle" then variationsSubtleV1
  else if intensity = "dramatic" then variationsDramaticV1
  else variationsModerateV1

/-- Variation-list lookup of the V2 orchestrator (fused and adjusted). -/
def variationsV2 (intensity : String) : List String :=
  if intensity = "subtle" then variationsSubtleV2
  else if intensity = "dramatic" then variationsDramaticV2
  else variationsModerateV2

/-- Descriptor chosen for call i by the V1 orchestrator: the element at
index i modulo the list length (src/services/geminiService.ts line 397). -/
def descV1 (intensity : String) (i : Nat) : String :=
  (variationsV1 intensity).getD (i % (variationsV1 intensity).length) ""

/-- Descriptor chosen for call i by the V2 orchestrator
(src/unnamed/part_002 lines 362 and 546). -/
def descV2 (intensity : String) (i : Nat) : String :=
  (variationsV2 intensity).getD (i % (variationsV2 intensity).length) ""

/-- Base temperature per intensity tier of the V1 orchestrator
(src/services/geminiService.ts lines 407 to 420). -/
def baseTempV1 (intensity : String) : ℚ :=
  if intensity = "subtle" then 0.6 else if intensity = "dramatic" then 0.8 else 0.7

/-- Temperature range per intensity tier of the V1 orchestrator. -/
def tempRangeV1 (intensity : String) : ℚ :=
  if intensity = "subtle" then 0.2 else if intensity = "dramatic" then 0.5 else 0.3

/-- Temperature passed to call i by the V1 orchestrator
(src/services/geminiService.ts line 422). -/
def temperatureV1 (intensity : String) (count i : Nat) : ℚ :=
  baseTempV1 intensity + i * tempRangeV1 intensity / ((max (count - 1) 1 : Nat) : ℚ)

/-- Temperature passed to call i by the V2 fused orchestrator
(src/unnamed/part_002 lines 552 to 566); each branch computes the ramp
directly. -/
def temperatureV2 (intensity : String) (count i : Nat) : ℚ :=
  if intensity = "subtle" then 0.4 + i * 0.2 / ((max (count - 1) 1 : Nat) : ℚ)
  else if intensity = "dramatic" then 0.7 + i * 0.3 / ((max (count - 1) 1 : Nat) : ℚ)
  else 0.5 + i * 0.3 / ((max (count - 1) 1 : Nat) : ℚ)

/-- Fixed temperature per intensity of the V2 adjusted-images batch
(src/unnamed/part_002 lines 369 and 370); note the fallback here is 1.0. -/
def adjTempV2 (intensity : String) : ℚ :=
  if intensity = "subtle" then 0.5 else if intensity = "moderate" then 0.8 else 1.0

/-- Seed of call i in the V1 orchestrator: the i-th pseudo-random draw,
with no further dependence on i (src/services/geminiService.ts line 403). -/
def seedV1 (draws : Nat → Nat) (i : Nat) : Nat := draws i

/-- Seed of call i in the V2 fused orchestrator: the i-th pseudo-random
draw plus one thousand times the call index (src/unnamed/part_002
line 569). -/
def seedFusedV2 (draws : Nat → Nat) (i : Nat) : Nat := draws i + i * 1000

/-- Seed of call i in the V2 adjusted-images batch: the i-th pseudo-random
draw plus the call index (src/unnamed/part_002 line 373). -/
def seedAdjV2 (draws : Nat → Nat) (i : Nat) : Nat := draws i + i

/-- The source-image mentions prepended to every fused prompt. -/
def sourceMentions (sourceCount : Nat) : String :=
  String.join ((List.range sourceCount).map
    (fun j => "Source image " ++ Nat.repr (j + 1) ++ " is provided. "))

/-- Outgoing instruction of fused call i: fixed preamble, source mentions,
user instruction, then the variant descriptor (src/unnamed/part_002
lines 539 to 546). -/
def fusedPrompt (sourceCount : Nat) (userPrompt desc : String) : String :=
  "Fuse the images. The main image is the one I\x27m editing. " ++
    sourceMentions sourceCount ++ "Instructions: " ++ userPrompt ++
    ". Create " ++ desc ++ "."

/-- Outgoing instruction of adjusted call i (src/unnamed/part_002
line 365). -/
def adjustedPrompt (userPrompt desc : String) : String :=
  "Apply this adjustment: " ++ userPrompt ++ " " ++ desc

/-- Placeholder resolution at a failed slot: the fetched failure asset if
./image_gen_failed.png loads, else the hardcoded transparent pixel
(src/unnamed/part_002 lines 588 to 605). -/
def resolvePlaceholder (fetched : Option Str) : Str :=
  match fetched with
  | some uri => uri
  | none => fallbackPixel

/-- The JavaScript defaulting error.message or-else the unknown-error
literal: an empty message is replaced by the default. -/
def errMsgOr (e : Str) : Str := if e = [] then unknownErrMsg else e

/-- Message carried by the failure progress event of the V2 orchestrator
(src/unnamed/part_002 lines 419 and 616). -/
def failProgressMsg (i1 : Nat) (e : Str) : Str :=
  imgPrefixBytes ++ natBytes i1 ++ failMidBytes ++ errMsgOr e

/-- Bytes of the all-adjustments-failed error message
(src/unnamed/part_002 line 430). -/
def adjBatchFailedMsg : Str := [230, 137, 128, 230, 156, 137, 229, 155, 190, 231, 137, 135, 232, 176, 131, 230, 149, 180, 233, 131, 189, 229, 164, 177, 232, 180, 165, 228, 186, 134]

/-- Environment of one batch run: outcomes of the external transform per
call index, the pseudo-random draws, the per-failure placeholder fetch
outcome, the request fields, and the message normalization applied by
handleApiError when an error leaves the orchestrator (the normalization
itself wraps the JSON.parse builtin and is kept abstract). -/
structure BatchEnv where
  transform : Nat → Except Str Str
  draws : Nat → Nat
  fetchPlaceholder : Nat → Option Str
  intensity : String
  userPrompt : String
  sourceCount : Nat
  wrap : Str → Str

/-- Parameters of one issued call, as observed at the transform boundary. -/
structure CallRec where
  fullPrompt : String
  descriptor : String
  seed : Nat
  temperature : ℚ
  deriving DecidableEq, Repr

/-- Observable trace of a batch run: the results list in call order, the
progress events in emission order, the issued calls in order, and the
number of image-encoding operations performed. -/
structure BatchTrace where
  results : List Str
  events : List (Str × Nat × Nat)
  calls : List CallRec
  encodes : Nat
  deriving DecidableEq, Repr

/-- Call record of fused call i in the V2 orchestrator. -/
def fusedCallV2 (env : BatchEnv) (count i : Nat) : CallRec :=
  ⟨fusedPrompt env.sourceCount env.userPrompt (descV2 env.intensity i),
   descV2 env.intensity i, seedFusedV2 env.draws i,
   temperatureV2 env.intensity count i⟩

/-- One iteration of the V2 fused loop (src/unnamed/part_002 lines 536 to
624): a success appends the result and emits a progress event; a failure
appends the tagged placeholder, emits a tagged progress event, and
continues — there is no abort path. -/
def fusedStepV2 (env : BatchEnv) (count i : Nat) (t : BatchTrace) : BatchTrace :=
  let call := fusedCallV2 env count i
  match env.transform i with
  | Except.ok r =>
    ⟨t.results ++ [r], t.events ++ [(r, i + 1, count)], t.calls ++ [call], t.encodes⟩
  | Except.error e =>
    let ph := resolvePlaceholder (env.fetchPlaceholder i)
    ⟨t.results ++ [tagSlot ph (errMsgOr e)],
     t.events ++ [(ph ++ errTag ++ encodeURIComponentB (failProgressMsg (i + 1) e), i + 1, count)],
     t.calls ++ [call], t.encodes⟩

/-- Trace after the first n iterations of the V2 fused loop; image parts
are encoded once before the loop, one encode for the main image and one
per source image (src/unnamed/part_002 lines 530 to 533). -/
def fusedLoopV2 (env : BatchEnv) (count : Nat) : Nat → BatchTrace
  | 0 => ⟨[], [], [], 1 + env.sourceCount⟩
  | n + 1 => fusedStepV2 env count n (fusedLoopV2 env count n)

/-- Full trace of a V2 fused batch run. -/
def fusedTraceV2 (env : BatchEnv) (count : Nat) : BatchTrace :=
  fusedLoopV2 env count count

/-- The V2 generateFusedImages: runs the loop and returns the results,
raising the batch-entirely-failed error if none were collected
(src/unnamed/part_002 lines 626 to 630). -/
def generateFusedImagesV2 (env : BatchEnv) (count : Nat) : Except Str (List Str) :=
  let t := fusedTraceV2 env count
  if t.results.length = 0 then Except.error (env.wrap batchFailedMsg)
  else Except.ok t.results

/-- Call record of fused call i in the V1 orchestrator. -/
def fusedCallV1 (env : BatchEnv) (count i : Nat) : CallRec :=
  ⟨fusedPrompt env.sourceCount env.userPrompt (descV1 env.intensity i),
   descV1 env.intensity i, seedV1 env.draws i,
   temperatureV1 env.intensity count i⟩

/-- One iteration of the V1 fused loop (src/services/geminiService.ts
lines 387 to 445): a success appends the result and emits a progress
event; a failure at index 0 with no collected results aborts with the
original error; any other failure is silently skipped — nothing is
appended and no progress event is emitted. -/
def fusedStepV1 (env : BatchEnv) (count i : Nat) (t : BatchTrace) :
    BatchTrace × Option Str :=
  let call := fusedCallV1 env count i
  match env.transform i with
  | Except.ok r =>
    (⟨t.results ++ [r], t.events ++ [(r, i + 1, count)], t.calls ++ [call], t.encodes⟩, none)
  | Except.error e =>
    if i = 0 ∧ t.results.length = 0 then
      (⟨t.results, t.events, t.calls ++ [call], t.encodes⟩, some e)
    else (⟨t.results, t.events, t.calls ++ [call], t.encodes⟩, none)

/-- Trace and abort state after the first n iterations of the V1 fused
loop; once aborted, no further iterations run. -/
def fusedLoopV1 (env : BatchEnv) (count : Nat) : Nat → BatchTrace × Option Str
  | 0 => (⟨[], [], [], 1 + env.sourceCount⟩, none)
  | n + 1 =>
    let p := fusedLoopV1 env count n
    match p.2 with
    | some e => p
    | none => fusedStepV1 env count n p.1

/-- The V1 generateFusedImages: an abort propagates the wrapped error;
otherwise the collected results are returned unless empty
(src/services/geminiService.ts lines 437 to 451). -/
def generateFusedImagesV1 (env : BatchEnv) (count : Nat) : Except Str (List Str) :=
  match fusedLoopV1 env count count with
  | (_, some e) => Except.error (env.wrap e)
  | (t, none) =>
    if t.results.length = 0 then Except.error (env.wrap batchFailedMsg)
    else Except.ok t.results

/-- Call record of adjusted call i in the V2 adjusted-images batch. -/
def adjCallV2 (env : BatchEnv) (i : Nat) : CallRec :=
  ⟨adjustedPrompt env.userPrompt (descV2 env.intensity i),
   descV2 env.intensity i, seedAdjV2 env.draws i, adjTempV2 env.intensity⟩

/-- One iteration of the V2 adjusted loop (src/unnamed/part_002 lines 357
to 426): the source image is re-encoded inside the loop on every
iteration, before the call; failures behave as in the V2 fused loop. -/
def adjStepV2 (env : BatchEnv) (count i : Nat) (t : BatchTrace) : BatchTrace :=
  let call := adjCallV2 env i
  match env.transform i with
  | Except.ok r =>
    ⟨t.results ++ [r], t.events ++ [(r, i + 1, count)], t.calls ++ [call], t.encodes + 1⟩
  | Except.error e =>
    let ph := resolvePlaceholder (env.fetchPlaceholder i)
    ⟨t.results ++ [tagSlot ph (errMsgOr e)],
     t.events ++ [(ph ++ errTag ++ encodeURIComponentB (failProgressMsg (i + 1) e), i + 1, count)],
     t.calls ++ [call], t.encodes + 1⟩

/-- Trace after the first n iterations of the V2 adjusted loop; no
preprocessing happens before the loop. -/
def adjLoopV2 (env : BatchEnv) (count : Nat) : Nat → BatchTrace
  | 0 => ⟨[], [], [], 0⟩
  | n + 1 => adjStepV2 env count n (adjLoopV2 env count n)

/-- Full trace of a V2 adjusted batch run. -/
def adjTraceV2 (env : BatchEnv) (count : Nat) : BatchTrace :=
  adjLoopV2 env count count

/-- The V2 generateAdjustedImages (src/unnamed/part_002 lines 311 to
438). -/
def generateAdjustedImagesV2 (env : BatchEnv) (count : Nat) : Except Str (List Str) :=
  let t := adjTraceV2 env count
  if t.results.length = 0 then Except.error (env.wrap adjBatchFailedMsg)
  else Except.ok t.results

/-- Environment of one getGoogleAI call: the API key visible to the
process and the outcome of the GoogleGenAI constructor, the latter being
external code.  Client instances are represented by numeric identities. -/
structure ClientEnv where
  apiKey : Option String
  initResult : Except String Nat

/-- Message thrown when no API key is configured
(src/services/geminiService.ts line 23). -/
def apiKeyMissingMsg : String :=
  "找不到 API 密钥。请确保系统 API 密钥已在环境中正确设置。"

/-- Prefix of the message thrown when client construction fails
(src/services/geminiService.ts line 33). -/
def initFailedPrefix : String := "初始化 AI 服务失败: "

/-- Model of getGoogleAI (identical in src/services/geminiService.ts and
src/unnamed/part_002, lines 16 to 35): returns the cached instance when
present; otherwise checks the key, constructs a client, caches it on
success, and resets the cache to none on construction failure so a later
call retries. -/
def getGoogleAI (aiInstance : Option Nat) (env : ClientEnv) :
    Except String Nat × Option Nat :=
  match aiInstance with
  | some c => (Except.ok c, some c)
  | none =>
    match env.apiKey with
    | none => (Except.error apiKeyMissingMsg, none)
    | some _ =>
      match env.initResult with
      | Except.ok c => (Except.ok c, some c)
      | Except.error e => (Except.error (initFailedPrefix ++ e), none)

/-- Run a sequence of getGoogleAI calls, threading the cached instance. -/
def runClientCalls (st : Option Nat) : List ClientEnv → List (Except String Nat) × Option Nat
  | [] => ([], st)
  | env :: rest =>
    let r := getGoogleAI st env
    let rs := runClientCalls r.2 rest
    (r.1 :: rs.1, rs.2)


/-- Value of slot i of a V2 batch: the transform result on success, the
tagged placeholder on failure. -/
def fusedResultAtV2 (env : BatchEnv) (i : Nat) : Str :=
  match env.transform i with
  | Except.ok r => r
  | Except.error e => tagSlot (resolvePlaceholder (env.fetchPlaceholder i)) (errMsgOr e)

/-- Progress event emitted for index i of a V2 batch. -/
def fusedEventAtV2 (env : BatchEnv) (count i : Nat) : Str × Nat × Nat :=
  match env.transform i with
  | Except.ok r => (r, i + 1, count)
  | Except.error e =>
    (resolvePlaceholder (env.fetchPlaceholder i) ++ errTag ++
      encodeURIComponentB (failProgressMsg (i + 1) e), i + 1, count)

/-- Closed form of the V2 fused loop: every index contributes exactly one
result, one event and one call, and no encoding happens inside the loop. -/
theorem fusedLoopV2_eq (env : BatchEnv) (count n : Nat) :
    fusedLoopV2 env count n =
      ⟨(List.range n).map (fusedResultAtV2 env),
       (List.range n).map (fusedEventAtV2 env count),
       (List.range n).map (fusedCallV2 env count), 1 + env.sourceCount⟩ := by
  induction n with
  | zero => rfl
  | succ n ih =>
    rw [fusedLoopV2, ih]
    cases h : env.transform n with
    | ok r => simp [fusedStepV2, h, fusedResultAtV2, fusedEventAtV2, List.range_succ]
    | error e => simp [fusedStepV2, h, fusedResultAtV2, fusedEventAtV2, List.range_succ]

/-- Closed form of the V2 adjusted loop: as the fused loop, but with one
encoding operation per iteration. -/
theorem adjLoopV2_eq (env : BatchEnv) (count n : Nat) :
    adjLoopV2 env count n =
      ⟨(List.range n).map (fusedResultAtV2 env),
       (List.range n).map (fusedEventAtV2 env count),
       (List.range n).map (adjCallV2 env), n⟩ := by
  induction n with
  | zero => rfl
  | succ n ih =>
    rw [adjLoopV2, ih]
    cases h : env.transform n with
    | ok r => simp [adjStepV2, h, fusedResultAtV2, fusedEventAtV2, List.range_succ]
    | error e => simp [adjStepV2, h, fusedResultAtV2, fusedEventAtV2, List.range_succ]

/-- Once aborted, the V1 loop is frozen. -/
theorem fusedLoopV1_succ_some (env : BatchEnv) (count n : Nat) (e : Str)
    (h : (fusedLoopV1 env count n).2 = some e) :
    fusedLoopV1 env count (n + 1) = fusedLoopV1 env count n := by
  rw [fusedLoopV1, h]

/-- While not aborted, the V1 loop performs one more step. -/
theorem fusedLoopV1_succ_none (env : BatchEnv) (count n : Nat)
    (h : (fusedLoopV1 env count n).2 = none) :
    fusedLoopV1 env count (n + 1) = fusedStepV1 env count n (fusedLoopV1 env count n).1 := by
  rw [fusedLoopV1, h]

/-- A V1 step always appends exactly the call record of its index. -/
theorem fusedStepV1_calls (env : BatchEnv) (count i : Nat) (t : BatchTrace) :
    (fusedStepV1 env count i t).1.calls = t.calls ++ [fusedCallV1 env count i] := by
  cases hn : env.transform i with
  | ok u => simp [fusedStepV1, hn]
  | error e =>
    by_cases hc : i = 0 ∧ t.results = []
    · obtain ⟨hi0, hres⟩ := hc
      subst hi0
      simp [fusedStepV1, hn, hres]
    · simp [fusedStepV1, hn, hc]

/-- A V1 step never touches the encode count. -/
theorem fusedStepV1_encodes (env : BatchEnv) (count i : Nat) (t : BatchTrace) :
    (fusedStepV1 env count i t).1.encodes = t.encodes := by
  cases hn : env.transform i with
  | ok u => simp [fusedStepV1, hn]
  | error e =>
    by_cases hc : i = 0 ∧ t.results = []
    · obtain ⟨hi0, hres⟩ := hc
      subst hi0
      simp [fusedStepV1, hn, hres]
    · simp [fusedStepV1, hn, hc]

/-- A V1 step appends at most one result. -/
theorem fusedStepV1_results_le (env : BatchEnv) (count i : Nat) (t : BatchTrace) :
    (fusedStepV1 env count i t).1.results.length ≤ t.results.length + 1 := by
  cases hn : env.transform i with
  | ok u => simp [fusedStepV1, hn]
  | error e =>
    by_cases hc : i = 0 ∧ t.results = []
    · obtain ⟨hi0, hres⟩ := hc
      subst hi0
      simp [fusedStepV1, hn, hres]
    · simp [fusedStepV1, hn, hc]

/-- When the first call succeeds, the V1 loop never aborts: results keep
exactly the successful outcomes, events are emitted for successes only,
and every index issues a call. -/
theorem fusedLoopV1_ok0 (env : BatchEnv) (count : Nat) (r : Str)
    (h : env.transform 0 = Except.ok r) (n : Nat) :
    fusedLoopV1 env count n =
      (⟨(List.range n).filterMap (fun i => (env.transform i).toOption),
        (List.range n).filterMap (fun i =>
          match env.transform i with
          | Except.ok u => some (u, i + 1, count)
          | Except.error _ => none),
        (List.range n).map (fusedCallV1 env count), 1 + env.sourceCount⟩, none) := by
  induction n with
  | zero => rfl
  | succ n ih =>
    rw [fusedLoopV1, ih]
    cases hn : env.transform n with
    | ok u => simp [fusedStepV1, hn, List.range_succ, Except.toOption]
    | error e =>
      rcases Nat.eq_zero_or_pos n with h0 | hpos
      · subst h0
        rw [h] at hn
        cases hn
      · have hne : n ≠ 0 := Nat.pos_iff_ne_zero.mp hpos
        simp [fusedStepV1, hn, List.range_succ, Except.toOption, hne]

/-- When the first call fails, the V1 loop aborts immediately: the trace
records exactly one call and the original error. -/
theorem fusedLoopV1_fail0 (env : BatchEnv) (count : Nat) (e : Str)
    (h : env.transform 0 = Except.error e) (n : Nat) (hn : 1 ≤ n) :
    fusedLoopV1 env count n =
      (⟨[], [], [fusedCallV1 env count 0], 1 + env.sourceCount⟩, some e) := by
  induction n with
  | zero => omega
  | succ n ih =>
    rcases Nat.eq_zero_or_pos n with h0 | hpos
    · subst h0
      rw [fusedLoopV1]
      rw [show fusedLoopV1 env count 0 = (⟨[], [], [], 1 + env.sourceCount⟩, none) from rfl]
      simp [fusedStepV1, h]
    · rw [fusedLoopV1, ih hpos]

/-- The V1 loop collects at most one result per iteration. -/
theorem fusedLoopV1_results_le (env : BatchEnv) (count n : Nat) :
    (fusedLoopV1 env count n).1.results.length ≤ n := by
  induction n with
  | zero => exact Nat.le_refl 0
  | succ n ih =>
    cases hab : (fusedLoopV1 env count n).2 with
    | some e =>
      rw [fusedLoopV1_succ_some env count n e hab]
      exact Nat.le_succ_of_le ih
    | none =>
      rw [fusedLoopV1_succ_none env count n hab]
      have hstep := fusedStepV1_results_le env count n (fusedLoopV1 env count n).1
      omega

/-- The encode count of the V1 loop is fixed before the loop starts. -/
theorem fusedLoopV1_encodes (env : BatchEnv) (count n : Nat) :
    (fusedLoopV1 env count n).1.encodes = 1 + env.sourceCount := by
  induction n with
  | zero => rfl
  | succ n ih =>
    cases hab : (fusedLoopV1 env count n).2 with
    | some e =>
      rw [fusedLoopV1_succ_some env count n e hab]
      exact ih
    | none =>
      rw [fusedLoopV1_succ_none env count n hab]
      rw [fusedStepV1_encodes env count n (fusedLoopV1 env count n).1]
      exact ih

/-- As long as the V1 loop has not aborted, every iteration has issued
exactly one call. -/
theorem fusedLoopV1_calls_len (env : BatchEnv) (count n : Nat)
    (h : (fusedLoopV1 env count n).2 = none) :
    (fusedLoopV1 env count n).1.calls.length = n := by
  induction n with
  | zero => rfl
  | succ n ih =>
    cases hab : (fusedLoopV1 env count n).2 with
    | some e =>
      rw [fusedLoopV1_succ_some env count n e hab] at h
      rw [hab] at h
      cases h
    | none =>
      rw [fusedLoopV1_succ_none env count n hab]
      rw [fusedStepV1_calls env count n (fusedLoopV1 env count n).1]
      rw [List.length_append, ih hab]
      rfl

/-- Every call the V1 loop issues at position i carries exactly the
parameters computed for index i. -/
theorem fusedLoopV1_calls_get (env : BatchEnv) (count : Nat) :
    ∀ n i c, ((fusedLoopV1 env count n).1.calls)[i]? = some c →
      c = fusedCallV1 env count i := by
  intro n
  induction n with
  | zero =>
    intro i c hc
    rw [show fusedLoopV1 env count 0 =
      (⟨[], [], [], 1 + env.sourceCount⟩, none) from rfl] at hc
    cases hc
  | succ n ih =>
    intro i c hc
    cases hab : (fusedLoopV1 env count n).2 with
    | some e =>
      rw [fusedLoopV1_succ_some env count n e hab] at hc
      exact ih i c hc
    | none =>
      rw [fusedLoopV1_succ_none env count n hab] at hc
      rw [fusedStepV1_calls env count n (fusedLoopV1 env count n).1] at hc
      rw [List.getElem?_append] at hc
      by_cases hi : i < (fusedLoopV1 env count n).1.calls.length
      · rw [if_pos hi] at hc
        exact ih i c hc
      · rw [if_neg hi] at hc
        have hlen := fusedLoopV1_calls_len env count n hab
        rcases Nat.lt_or_ge (i - (fusedLoopV1 env count n).1.calls.length) 1 with hd1 | hd1
        · have hieq : i = n := by omega
          subst hieq
          rw [show i - (fusedLoopV1 env count i).1.calls.length = 0 from by omega] at hc
          rw [show ([fusedCallV1 env count i] : List CallRec)[0]? =
            some (fusedCallV1 env count i) from rfl] at hc
          exact (Option.some.inj hc).symm
        · rw [List.getElem?_eq_none (by simpa using hd1)] at hc
          cases hc

/-- The denominator of the temperature ramp is positive. -/
theorem rampDenom_pos (count : Nat) : (0 : ℚ) < ((max (count - 1) 1 : Nat) : ℚ) := by
  have h : 1 ≤ max (count - 1) 1 := le_max_right _ _
  exact_mod_cast Nat.lt_of_lt_of_le Nat.zero_lt_one h

/-- Every intensity tier of the V1 orchestrator has a positive range. -/
theorem tempRangeV1_pos (s : String) : 0 < tempRangeV1 s := by
  rw [tempRangeV1]
  split
  · norm_num
  · split <;> norm_num

/-- The V1 temperature ramp is monotone in the call index. -/
theorem temperatureV1_mono (s : String) (count : Nat) (i j : Nat) (hij : i ≤ j) :
    temperatureV1 s count i ≤ temperatureV1 s count j := by
  rw [temperatureV1, temperatureV1]
  have hm := rampDenom_pos count
  have hr := tempRangeV1_pos s
  have hij2 : (i : ℚ) ≤ (j : ℚ) := by exact_mod_cast hij
  have hmul : (i : ℚ) * tempRangeV1 s ≤ (j : ℚ) * tempRangeV1 s :=
    mul_le_mul_of_nonneg_right hij2 hr.le
  exact add_le_add_left ((div_le_div_iff_of_pos_right hm).mpr hmul) _


/-- Both success and failure progress events of a V2 batch carry the
one-based index and the total. -/
theorem fusedEventAtV2_idx (env : BatchEnv) (count i : Nat) :
    (fusedEventAtV2 env count i).2 = (i + 1, count) := by
  rw [fusedEventAtV2]
  cases env.transform i <;> rfl

/-- A batch environment whose transform always succeeds. -/
def sampleEnvOk : BatchEnv :=
  ⟨fun _ => Except.ok [117], fun _ => 5, fun _ => none, "subtle", "p", 1, id⟩

/-- A batch environment whose transform fails exactly at index 1. -/
def sampleEnvFail1 : BatchEnv :=
  ⟨fun i => if i = 1 then Except.error [98] else Except.ok [117],
   fun _ => 5, fun _ => some [112, 104], "moderate", "p", 0, id⟩

/-- A batch environment whose transform always fails. -/
def sampleEnvFail0 : BatchEnv :=
  ⟨fun _ => Except.error [98], fun _ => 5, fun _ => none, "dramatic", "p", 0, id⟩

/-- A batch environment that succeeds at index 0 and fails afterwards. -/
def sampleEnvC3 : BatchEnv :=
  ⟨fun i => if i = 0 then Except.ok [117] else Except.error [98],
   fun _ => 0, fun _ => none, "moderate", "q", 0, id⟩

/-- C1 counterexample: in the generateFusedImages revision of
src/services/geminiService.ts (cited by the claim), a failure at index 1
after a success at index 0 is silently skipped: with count 2 the run
returns a single item (no placeholder appended at slot 1), and the only
progress event emitted is the one for index 0 — so the claimed placeholder,
per-index progress events and exact count all fail there. -/
theorem c1_counterexample :
    generateFusedImagesV1 sampleEnvC3 2 = Except.ok [[117]] ∧
      (fusedLoopV1 sampleEnvC3 2 2).1.events = [([117], 1, 2)] ∧
      ¬(([[117]] : List Str).length = 2) := by
  refine ⟨rfl, rfl, by decide⟩

/-- C1 amended: in the src/unnamed/part_002 revision the claim holds as
stated — when call k with k > 0 fails after at least one earlier success,
the batch is not aborted, the run returns exactly count items with the
tagged placeholder at slot k, a progress event is emitted for every index
0..count-1 (a tagged one for index k), and every index issues a call.  In
the src/services/geminiService.ts revision a failure after a successful
first call is skipped instead: the results are exactly the successful
outcomes and events are emitted for successful indices only. -/
theorem c1_amended_later_failure :
    (∀ env count k e, 0 < k → k < count → env.transform k = Except.error e →
      e ≠ [] → (∃ j r, j < k ∧ env.transform j = Except.ok r) →
      ∃ l, generateFusedImagesV2 env count = Except.ok l ∧
        l.length = count ∧
        l[k]? = some (tagSlot (resolvePlaceholder (env.fetchPlaceholder k)) e) ∧
        (fusedTraceV2 env count).events.length = count ∧
        (∀ j, j < count →
          ∃ u, (fusedTraceV2 env count).events[j]? = some (u, j + 1, count)) ∧
        (fusedTraceV2 env count).events[k]? = some
          (resolvePlaceholder (env.fetchPlaceholder k) ++ errTag ++
            encodeURIComponentB (failProgressMsg (k + 1) e), k + 1, count) ∧
        (fusedTraceV2 env count).calls.length = count) ∧
    (∀ env count r, env.transform 0 = Except.ok r →
      (fusedLoopV1 env count count).1.results =
        (List.range count).filterMap (fun i => (env.transform i).toOption) ∧
      (fusedLoopV1 env count count).1.events =
        (List.range count).filterMap (fun i =>
          match env.transform i with
          | Except.ok u => some (u, i + 1, count)
          | Except.error _ => none)) := by
  constructor
  · intro env count k e hk0 hkc he hne hprev
    have hresults : (fusedTraceV2 env count).results =
        (List.range count).map (fusedResultAtV2 env) := by
      rw [fusedTraceV2, fusedLoopV2_eq]
    have hevents : (fusedTraceV2 env count).events =
        (List.range count).map (fusedEventAtV2 env count) := by
      rw [fusedTraceV2, fusedLoopV2_eq]
    have hcalls : (fusedTraceV2 env count).calls =
        (List.range count).map (fusedCallV2 env count) := by
      rw [fusedTraceV2, fusedLoopV2_eq]
    have hres : fusedResultAtV2 env k =
        tagSlot (resolvePlaceholder (env.fetchPlaceholder k)) e := by
      simp [fusedResultAtV2, he, errMsgOr, hne]
    have hne0 : ¬ (fusedTraceV2 env count).results.length = 0 := by
      rw [hresults]
      simp
      omega
    refine ⟨(fusedTraceV2 env count).results, ?_, ?_, ?_, ?_, ?_, ?_, ?_⟩
    · simp only [generateFusedImagesV2, if_neg hne0]
    · rw [hresults]
      simp
    · rw [hresults, List.getElem?_map, List.getElem?_range hkc]
      show some (fusedResultAtV2 env k) = _
      rw [hres]
    · rw [hevents]
      simp
    · intro j hj
      refine ⟨(fusedEventAtV2 env count j).1, ?_⟩
      rw [hevents, List.getElem?_map, List.getElem?_range hj]
      show some (fusedEventAtV2 env count j) =
        some ((fusedEventAtV2 env count j).1, j + 1, count)
      rw [← fusedEventAtV2_idx env count j]
    · have hev : fusedEventAtV2 env count k =
          (resolvePlaceholder (env.fetchPlaceholder k) ++ errTag ++
            encodeURIComponentB (failProgressMsg (k + 1) e), k + 1, count) := by
        simp [fusedEventAtV2, he]
      rw [hevents, List.getElem?_map, List.getElem?_range hkc]
      show some (fusedEventAtV2 env count k) = _
      rw [hev]
    · rw [hcalls]
      simp
  · intro env count r h
    constructor
    · rw [fusedLoopV1_ok0 env count r h count]
    · rw [fusedLoopV1_ok0 env count r h count]

theorem c1_amended_witness :
    (∃ l, generateFusedImagesV2 sampleEnvFail1 3 = Except.ok l ∧ l.length = 3 ∧
      l[1]? = some (tagSlot (resolvePlaceholder (sampleEnvFail1.fetchPlaceholder 1)) [98])) ∧
      (fusedLoopV1 sampleEnvC3 2 2).1.results =
        (List.range 2).filterMap (fun i => (sampleEnvC3.transform i).toOption) := by
  constructor
  · obtain ⟨l, h1, h2, h3, -⟩ := c1_amended_later_failure.1 sampleEnvFail1 3 1 [98]
      (by decide) (by decide) rfl (by decide) ⟨0, [117], by decide, rfl⟩
    exact ⟨l, h1, h2, h3⟩
  · exact (c1_amended_later_failure.2 sampleEnvC3 2 [117] rfl).1

/-- The V1 batch aborts with the wrapped error when the loop aborted. -/
theorem generateFusedImagesV1_abort (env : BatchEnv) (count : Nat) (e : Str)
    (h : (fusedLoopV1 env count count).2 = some e) :
    generateFusedImagesV1 env count = Except.error (env.wrap e) := by
  rw [generateFusedImagesV1.eq_def]
  rw [show fusedLoopV1 env count count =
    ((fusedLoopV1 env count count).1, (fusedLoopV1 env count count).2) from rfl]
  rw [h]

/-- The V1 batch without an abort returns the collected results, unless
none were collected. -/
theorem generateFusedImagesV1_done (env : BatchEnv) (count : Nat)
    (h : (fusedLoopV1 env count count).2 = none) :
    generateFusedImagesV1 env count =
      if (fusedLoopV1 env count count).1.results.length = 0
      then Except.error (env.wrap batchFailedMsg)
      else Except.ok (fusedLoopV1 env count count).1.results := by
  rw [generateFusedImagesV1.eq_def]
  rw [show fusedLoopV1 env count count =
    ((fusedLoopV1 env count count).1, (fusedLoopV1 env count count).2) from rfl]
  rw [h]

/-- C2 counterexample: in the generateFusedImages revision of
src/unnamed/part_002 (cited by the claim), a failure of the very first
call does not abort: with count 3 and every call failing, the run returns
3 tagged placeholders and all 3 calls are issued — not exactly one. -/
theorem c2_counterexample :
    generateFusedImagesV2 sampleEnvFail0 3 =
        Except.ok (List.replicate 3 (tagSlot fallbackPixel [98])) ∧
      (fusedTraceV2 sampleEnvFail0 3).calls.length = 3 ∧
      ¬((3 : Nat) = 1) := by
  refine ⟨rfl, rfl, by decide⟩

/-- C2 amended: in the src/services/geminiService.ts revision, when the
first call fails and no successful result exists yet, the batch rejects
immediately with the wrapped error after exactly one transform call.  The
src/unnamed/part_002 revision has no abort path: a first-call failure is
handled like any other failure — the tagged placeholder lands at slot 0
and all count calls are issued. -/
theorem c2_amended_first_failure :
    (∀ env count e, 1 ≤ count → env.transform 0 = Except.error e →
      generateFusedImagesV1 env count = Except.error (env.wrap e) ∧
        (fusedLoopV1 env count count).1.calls.length = 1) ∧
    (∀ env count e, 1 ≤ count → env.transform 0 = Except.error e → e ≠ [] →
      ∃ l, generateFusedImagesV2 env count = Except.ok l ∧
        l.length = count ∧
        l[0]? = some (tagSlot (resolvePlaceholder (env.fetchPlaceholder 0)) e) ∧
        (fusedTraceV2 env count).calls.length = count) := by
  constructor
  · intro env count e hc h
    have hl := fusedLoopV1_fail0 env count e h count hc
    constructor
    · apply generateFusedImagesV1_abort env count e
      rw [hl]
    · rw [hl]
      rfl
  · intro env count e hc he hne
    have hresults : (fusedTraceV2 env count).results =
        (List.range count).map (fusedResultAtV2 env) := by
      rw [fusedTraceV2, fusedLoopV2_eq]
    have hcalls : (fusedTraceV2 env count).calls =
        (List.range count).map (fusedCallV2 env count) := by
      rw [fusedTraceV2, fusedLoopV2_eq]
    have hres : fusedResultAtV2 env 0 =
        tagSlot (resolvePlaceholder (env.fetchPlaceholder 0)) e := by
      simp [fusedResultAtV2, he, errMsgOr, hne]
    have hne0 : ¬ (fusedTraceV2 env count).results.length = 0 := by
      rw [hresults]
      simp
      omega
    refine ⟨(fusedTraceV2 env count).results, ?_, ?_, ?_, ?_⟩
    · simp only [generateFusedImagesV2, if_neg hne0]
    · rw [hresults]
      simp
    · rw [hresults, List.getElem?_map, List.getElem?_range (show 0 < count by omega)]
      show some (fusedResultAtV2 env 0) = _
      rw [hres]
    · rw [hcalls]
      simp

theorem c2_amended_witness :
    generateFusedImagesV1 sampleEnvFail0 3 = Except.error [98] ∧
      (fusedLoopV1 sampleEnvFail0 3 3).1.calls.length = 1 ∧
      (∃ l, generateFusedImagesV2 sampleEnvFail0 3 = Except.ok l ∧ l.length = 3) := by
  have h1 := c2_amended_first_failure.1 sampleEnvFail0 3 [98] (by decide) rfl
  refine ⟨by simpa using h1.1, h1.2, ?_⟩
  obtain ⟨l, g1, g2, -⟩ :=
    c2_amended_first_failure.2 sampleEnvFail0 3 [98] (by decide) rfl (by decide)
  exact ⟨l, g1, g2⟩

/-- C3 counterexample: in the V1 orchestrator, a failure at index 1 after a
success at index 0 neither aborts nor contributes a placeholder: the run
with count 2 returns normally with a single item, so a returned list can be
shorter than count outside the abort-on-first-failure case. -/
theorem c3_counterexample :
    generateFusedImagesV1 sampleEnvC3 2 = Except.ok [[117]] ∧
      ([[117]] : List Str).length = 1 ∧ ¬((1 : Nat) = 2) := by
  refine ⟨rfl, rfl, by decide⟩

/-- C3 amended: every V1 return has at most count items; when the first
call succeeds the V1 run returns exactly the successful results, so the
length is below count whenever a later call fails (such indices are
skipped), while the abort case throws and returns nothing; the V2 revision
always returns exactly count items. -/
theorem c3_amended_length :
    (∀ env count l, generateFusedImagesV1 env count = Except.ok l →
      l.length ≤ count) ∧
    (∀ env count r, 1 ≤ count → env.transform 0 = Except.ok r →
      generateFusedImagesV1 env count =
        Except.ok ((List.range count).filterMap
          (fun i => (env.transform i).toOption))) ∧
    (∀ env count, 1 ≤ count →
      ∃ l, generateFusedImagesV2 env count = Except.ok l ∧ l.length = count) := by
  refine ⟨?_, ?_, ?_⟩
  · intro env count l h
    cases hab : (fusedLoopV1 env count count).2 with
    | some e =>
      rw [generateFusedImagesV1_abort env count e hab] at h
      cases h
    | none =>
      rw [generateFusedImagesV1_done env count hab] at h
      by_cases h0 : (fusedLoopV1 env count count).1.results.length = 0
      · rw [if_pos h0] at h
        cases h
      · rw [if_neg h0] at h
        rw [← Except.ok.inj h]
        exact fusedLoopV1_results_le env count count
  · intro env count r hc h
    have hl := fusedLoopV1_ok0 env count r h count
    have hab : (fusedLoopV1 env count count).2 = none := by rw [hl]
    have hres : (fusedLoopV1 env count count).1.results =
        (List.range count).filterMap (fun i => (env.transform i).toOption) := by
      rw [hl]
    have hmem : r ∈ (List.range count).filterMap
        (fun i => (env.transform i).toOption) := by
      rw [List.mem_filterMap]
      refine ⟨0, ?_, by rw [h]; rfl⟩
      simp
      omega
    have hne0 : ¬ ((List.range count).filterMap
        (fun i => (env.transform i).toOption)).length = 0 := by
      intro h0
      rw [List.length_eq_zero] at h0
      rw [h0] at hmem
      cases hmem
    rw [generateFusedImagesV1_done env count hab, hres, if_neg hne0]
  · intro env count hc
    have hresults : (fusedTraceV2 env count).results =
        (List.range count).map (fusedResultAtV2 env) := by
      rw [fusedTraceV2, fusedLoopV2_eq]
    have hne0 : ¬ (fusedTraceV2 env count).results.length = 0 := by
      rw [hresults]
      simp
      omega
    refine ⟨(fusedTraceV2 env count).results, ?_, ?_⟩
    · simp only [generateFusedImagesV2, if_neg hne0]
    · rw [hresults]
      simp

theorem c3_witness :
    generateFusedImagesV1 sampleEnvOk 2 = Except.ok [[117], [117]] ∧
      ∃ l, generateFusedImagesV2 sampleEnvOk 2 = Except.ok l ∧ l.length = 2 := by
  constructor
  · rw [c3_amended_length.2.1 sampleEnvOk 2 [117] (by decide) rfl]
    rfl
  · exact c3_amended_length.2.2 sampleEnvOk 2 (by decide)

/-- A linear ramp with nonnegative slope over a positive denominator is
monotone in the index. -/
theorem rampTerm_mono (base r m : ℚ) (hr : 0 ≤ r) (hm : 0 < m) (i j : Nat)
    (hij : i ≤ j) : base + (i : ℚ) * r / m ≤ base + (j : ℚ) * r / m := by
  have hij2 : (i : ℚ) ≤ (j : ℚ) := by exact_mod_cast hij
  have hmul : (i : ℚ) * r ≤ (j : ℚ) * r := mul_le_mul_of_nonneg_right hij2 hr
  exact add_le_add_left ((div_le_div_iff_of_pos_right hm).mpr hmul) _

/-- The V2 temperature ramp is monotone in the call index for every
intensity. -/
theorem temperatureV2_mono (s : String) (count i j : Nat) (hij : i ≤ j) :
    temperatureV2 s count i ≤ temperatureV2 s count j := by
  have hm := rampDenom_pos count
  rw [temperatureV2, temperatureV2]
  split_ifs
  · exact rampTerm_mono 0.4 0.2 _ (by norm_num) hm i j hij
  · exact rampTerm_mono 0.7 0.3 _ (by norm_num) hm i j hij
  · exact rampTerm_mono 0.5 0.3 _ (by norm_num) hm i j hij

/-- C4 counterexample: in the generateFusedImages revision of
src/unnamed/part_002 (cited by the claim), the dramatic tier ramps from
0.7 to 1.0 and the moderate tier from 0.5 to 0.8 over a 2-item batch: the
two spans are equal, so the dramatic range is not the widest there. -/
theorem c4_counterexample :
    temperatureV2 "dramatic" 2 1 - temperatureV2 "dramatic" 2 0 =
      temperatureV2 "moderate" 2 1 - temperatureV2 "moderate" 2 0 ∧
    ¬(temperatureV2 "moderate" 2 1 - temperatureV2 "moderate" 2 0 <
      temperatureV2 "dramatic" 2 1 - temperatureV2 "dramatic" 2 0) := by
  have hm1 : ((max (2 - 1) 1 : Nat) : ℚ) = 1 := by
    rw [show (max (2 - 1) 1 : Nat) = 1 from rfl]
    exact Nat.cast_one
  have vd0 : temperatureV2 "dramatic" 2 0 = 0.7 := by
    rw [show temperatureV2 "dramatic" 2 0 =
      0.7 + ((0 : Nat) : ℚ) * 0.3 / ((max (2 - 1) 1 : Nat) : ℚ) from rfl, hm1]
    norm_num
  have vd1 : temperatureV2 "dramatic" 2 1 = 1.0 := by
    rw [show temperatureV2 "dramatic" 2 1 =
      0.7 + ((1 : Nat) : ℚ) * 0.3 / ((max (2 - 1) 1 : Nat) : ℚ) from rfl, hm1]
    norm_num
  have vm0 : temperatureV2 "moderate" 2 0 = 0.5 := by
    rw [show temperatureV2 "moderate" 2 0 =
      0.5 + ((0 : Nat) : ℚ) * 0.3 / ((max (2 - 1) 1 : Nat) : ℚ) from rfl, hm1]
    norm_num
  have vm1 : temperatureV2 "moderate" 2 1 = 0.8 := by
    rw [show temperatureV2 "moderate" 2 1 =
      0.5 + ((1 : Nat) : ℚ) * 0.3 / ((max (2 - 1) 1 : Nat) : ℚ) from rfl, hm1]
    norm_num
  rw [vd0, vd1, vm0, vm1]
  norm_num

/-- C4 amended: in both revisions, the temperature of every issued call i
is the linear ramp of its intensity evaluated at i (for
src/services/geminiService.ts exactly baseTemp + i * tempRange /
max(count-1, 1) with the named base and range tables; for
src/unnamed/part_002 the per-branch ramp temperatureV2), and both ramps
are monotonically non-decreasing in the call index.  The tier ordering
differs: in geminiService.ts subtle has the lowest base and narrowest
range (0.6, 0.2), moderate the middle (0.7, 0.3), dramatic the widest
range and highest base (0.8, 0.5); in part_002 the bases are still
ordered (0.4 < 0.5 < 0.7) and subtle is still the narrowest, but the
dramatic span equals the moderate span, so dramatic is the highest yet
not the widest there. -/
theorem c4_amended_temperature_ramp :
    (∀ (env : BatchEnv) (count i : Nat) (c : CallRec),
      ((fusedLoopV1 env count count).1.calls)[i]? = some c →
      c.temperature = baseTempV1 env.intensity +
        (i : ℚ) * tempRangeV1 env.intensity / ((max (count - 1) 1 : Nat) : ℚ)) ∧
    (∀ (env : BatchEnv) (count i : Nat) (c : CallRec),
      ((fusedTraceV2 env count).calls)[i]? = some c →
      c.temperature = temperatureV2 env.intensity count i) ∧
    (∀ s count i j, i ≤ j → temperatureV1 s count i ≤ temperatureV1 s count j) ∧
    (∀ s count i j, i ≤ j → temperatureV2 s count i ≤ temperatureV2 s count j) ∧
    tempRangeV1 "subtle" < tempRangeV1 "moderate" ∧
    tempRangeV1 "moderate" < tempRangeV1 "dramatic" ∧
    baseTempV1 "subtle" < baseTempV1 "moderate" ∧
    baseTempV1 "moderate" < baseTempV1 "dramatic" ∧
    temperatureV2 "subtle" 2 0 < temperatureV2 "moderate" 2 0 ∧
    temperatureV2 "moderate" 2 0 < temperatureV2 "dramatic" 2 0 ∧
    temperatureV2 "subtle" 2 1 - temperatureV2 "subtle" 2 0 <
      temperatureV2 "moderate" 2 1 - temperatureV2 "moderate" 2 0 ∧
    temperatureV2 "moderate" 2 1 - temperatureV2 "moderate" 2 0 =
      temperatureV2 "dramatic" 2 1 - temperatureV2 "dramatic" 2 0 := by
  have hrs : tempRangeV1 "subtle" = 0.2 := rfl
  have hrm : tempRangeV1 "moderate" = 0.3 := rfl
  have hrd : tempRangeV1 "dramatic" = 0.5 := rfl
  have hbs : baseTempV1 "subtle" = 0.6 := rfl
  have hbm : baseTempV1 "moderate" = 0.7 := rfl
  have hbd : baseTempV1 "dramatic" = 0.8 := rfl
  have hm1 : ((max (2 - 1) 1 : Nat) : ℚ) = 1 := by
    rw [show (max (2 - 1) 1 : Nat) = 1 from rfl]
    exact Nat.cast_one
  have vs0 : temperatureV2 "subtle" 2 0 = 0.4 := by
    rw [show temperatureV2 "subtle" 2 0 =
      0.4 + ((0 : Nat) : ℚ) * 0.2 / ((max (2 - 1) 1 : Nat) : ℚ) from rfl, hm1]
    norm_num
  have vs1 : temperatureV2 "subtle" 2 1 = 0.6 := by
    rw [show temperatureV2 "subtle" 2 1 =
      0.4 + ((1 : Nat) : ℚ) * 0.2 / ((max (2 - 1) 1 : Nat) : ℚ) from rfl, hm1]
    norm_num
  have vm0 : temperatureV2 "moderate" 2 0 = 0.5 := by
    rw [show temperatureV2 "moderate" 2 0 =
      0.5 + ((0 : Nat) : ℚ) * 0.3 / ((max (2 - 1) 1 : Nat) : ℚ) from rfl, hm1]
    norm_num
  have vm1 : temperatureV2 "moderate" 2 1 = 0.8 := by
    rw [show temperatureV2 "moderate" 2 1 =
      0.5 + ((1 : Nat) : ℚ) * 0.3 / ((max (2 - 1) 1 : Nat) : ℚ) from rfl, hm1]
    norm_num
  have vd0 : temperatureV2 "dramatic" 2 0 = 0.7 := by
    rw [show temperatureV2 "dramatic" 2 0 =
      0.7 + ((0 : Nat) : ℚ) * 0.3 / ((max (2 - 1) 1 : Nat) : ℚ) from rfl, hm1]
    norm_num
  have vd1 : temperatureV2 "dramatic" 2 1 = 1.0 := by
    rw [show temperatureV2 "dramatic" 2 1 =
      0.7 + ((1 : Nat) : ℚ) * 0.3 / ((max (2 - 1) 1 : Nat) : ℚ) from rfl, hm1]
    norm_num
  refine ⟨?_, ?_,
    fun s count i j hij => temperatureV1_mono s count i j hij,
    fun s count i j hij => temperatureV2_mono s count i j hij,
    by rw [hrs, hrm]; norm_num, by rw [hrm, hrd]; norm_num,
    by rw [hbs, hbm]; norm_num, by rw [hbm, hbd]; norm_num,
    by rw [vs0, vm0]; norm_num, by rw [vm0, vd0]; norm_num,
    by rw [vs0, vs1, vm0, vm1]; norm_num,
    by rw [vm0, vm1, vd0, vd1]; norm_num⟩
  · intro env count i c hc
    rw [fusedLoopV1_calls_get env count count i c hc]
    rfl
  · intro env count i c hc
    have hcalls : (fusedTraceV2 env count).calls =
        (List.range count).map (fusedCallV2 env count) := by
      rw [fusedTraceV2, fusedLoopV2_eq]
    rw [hcalls, List.getElem?_map] at hc
    by_cases hi : i < count
    · rw [List.getElem?_range hi] at hc
      have hc2 : some (fusedCallV2 env count i) = some c := hc
      rw [← Option.some.inj hc2]
      rfl
    · rw [List.getElem?_eq_none (by simpa using Nat.le_of_not_lt hi)] at hc
      exact Option.noConfusion hc

theorem c4_amended_witness :
    (fusedCallV1 sampleEnvOk 3 2).temperature = baseTempV1 "subtle" +
        ((2 : Nat) : ℚ) * tempRangeV1 "subtle" / ((max (3 - 1) 1 : Nat) : ℚ) ∧
      (fusedCallV2 sampleEnvFail1 3 2).temperature = temperatureV2 "moderate" 3 2 ∧
      temperatureV2 "subtle" 3 1 ≤ temperatureV2 "subtle" 3 2 := by
  refine ⟨c4_amended_temperature_ramp.1 sampleEnvOk 3 2
      (fusedCallV1 sampleEnvOk 3 2) rfl,
    c4_amended_temperature_ramp.2.1 sampleEnvFail1 3 2
      (fusedCallV2 sampleEnvFail1 3 2) rfl,
    c4_amended_temperature_ramp.2.2.2.1 "subtle" 3 1 2 (by norm_num)⟩

/-- C5: In both orchestrator revisions, the descriptor of every issued call
i is exactly the variation list element at index i modulo the list length,
and the selection is cyclic: the descriptor at index i coincides with the
descriptor at index i mod listLength. -/
theorem c5_cyclic_descriptors :
    (∀ env count i c, ((fusedLoopV1 env count count).1.calls)[i]? = some c →
      c.descriptor = (variationsV1 env.intensity).getD
        (i % (variationsV1 env.intensity).length) "") ∧
    (∀ env count i c, ((fusedTraceV2 env count).calls)[i]? = some c →
      c.descriptor = (variationsV2 env.intensity).getD
        (i % (variationsV2 env.intensity).length) "") ∧
    (∀ s i, descV1 s i = descV1 s (i % (variationsV1 s).length)) ∧
    (∀ s i, descV2 s i = descV2 s (i % (variationsV2 s).length)) := by
  refine ⟨?_, ?_, ?_, ?_⟩
  · intro env count i c hc
    rw [fusedLoopV1_calls_get env count count i c hc]
    rfl
  · intro env count i c hc
    have hcalls : (fusedTraceV2 env count).calls =
        (List.range count).map (fusedCallV2 env count) := by
      rw [fusedTraceV2, fusedLoopV2_eq]
    rw [hcalls, List.getElem?_map] at hc
    by_cases hi : i < count
    · rw [List.getElem?_range hi] at hc
      have hc2 : some (fusedCallV2 env count i) = some c := hc
      rw [← Option.some.inj hc2]
      rfl
    · rw [List.getElem?_eq_none (by simpa using Nat.le_of_not_lt hi)] at hc
      exact Option.noConfusion hc
  · intro s i
    rw [descV1, descV1, Nat.mod_mod_of_dvd i dvd_rfl]
  · intro s i
    rw [descV2, descV2, Nat.mod_mod_of_dvd i dvd_rfl]

theorem c5_witness :
    descV1 "subtle" 9 = descV1 "subtle" (9 % (variationsV1 "subtle").length) ∧
      (fusedCallV2 sampleEnvFail1 3 2).descriptor =
        (variationsV2 "moderate").getD (2 % (variationsV2 "moderate").length) "" := by
  constructor
  · exact c5_cyclic_descriptors.2.2.1 "subtle" 9
  · exact c5_cyclic_descriptors.2.1 sampleEnvFail1 3 2 (fusedCallV2 sampleEnvFail1 3 2) rfl

/-- C6 counterexample: the orchestrator has no cancellation input at all;
with count 3 and every call succeeding, all 3 calls are issued and 3 items
returned, so a cancellation requested after item 0 completes cannot bound
the calls by 1 as the claim demands. -/
theorem c6_counterexample :
    (fusedTraceV2 sampleEnvOk 3).calls.length = 3 ∧
      generateFusedImagesV2 sampleEnvOk 3 = Except.ok [[117], [117], [117]] ∧
      ¬((3 : Nat) ≤ 0 + 1) := by
  refine ⟨rfl, rfl, by decide⟩

/-- C6 amended: neither revision checks a cancellation flag between calls:
the V2 orchestrator always issues a call for every index 0..count-1, and
the V1 orchestrator does so whenever the first call succeeds; nothing in
the environment can stop the loop early. -/
theorem c6_amended_no_cancellation :
    (∀ env count, (fusedTraceV2 env count).calls.length = count) ∧
    (∀ env count r, env.transform 0 = Except.ok r →
      (fusedLoopV1 env count count).1.calls.length = count) := by
  constructor
  · intro env count
    rw [fusedTraceV2, fusedLoopV2_eq]
    simp
  · intro env count r h
    rw [fusedLoopV1_ok0 env count r h count]
    simp

theorem c6_witness : (fusedLoopV1 sampleEnvOk 2 2).1.calls.length = 2 :=
  c6_amended_no_cancellation.2 sampleEnvOk 2 [117] rfl

/-- C7 counterexample: the adjusted-images batch re-encodes its source
image inside the loop, once per call: with count 2 it performs 2 encodes,
not 1. -/
theorem c7_counterexample :
    (adjTraceV2 sampleEnvOk 2).encodes = 2 ∧ ¬((2 : Nat) = 1) := by
  refine ⟨rfl, by decide⟩

/-- C7 amended: both fused orchestrators encode each source image exactly
once before the loop, independently of count (one encode for the main
image plus one per auxiliary image); the adjusted-images batch of
src/unnamed/part_002 instead encodes its source image once per call. -/
theorem c7_amended_encode_counts :
    (∀ env count, (fusedTraceV2 env count).encodes = 1 + env.sourceCount) ∧
    (∀ env count, (fusedLoopV1 env count count).1.encodes = 1 + env.sourceCount) ∧
    (∀ env count, (adjTraceV2 env count).encodes = count) := by
  refine ⟨?_, ?_, ?_⟩
  · intro env count
    rw [fusedTraceV2, fusedLoopV2_eq]
  · intro env count
    exact fusedLoopV1_encodes env count count
  · intro env count
    rw [adjTraceV2, adjLoopV2_eq]

/-- C8 counterexample: in the V2 fused orchestrator the seed is the random
draw plus 1000 times the call index: with identical random draws at every
index, the two issued calls of a 2-item batch carry seeds 5 and 1005, so
the seed is derived from the call index beyond the generator state. -/
theorem c8_counterexample :
    (fusedTraceV2 sampleEnvOk 2).calls.map CallRec.seed = [5, 1005] ∧
      sampleEnvOk.draws 0 = sampleEnvOk.draws 1 ∧ ¬((5 : Nat) = 1005) := by
  refine ⟨rfl, rfl, by decide⟩

/-- C8 amended: the V1 orchestrator passes the raw pseudo-random draw as
the seed of call i, independent of i; the V2 fused orchestrator adds 1000
times the call index to the draw, and the V2 adjusted batch adds the call
index itself — a fresh draw per item deterministically offset by the
index, so reproducibility across a batch is still not guaranteed. -/
theorem c8_amended_seed_formulas :
    (∀ env count i c, ((fusedLoopV1 env count count).1.calls)[i]? = some c →
      c.seed = env.draws i) ∧
    (∀ env count i c, ((fusedTraceV2 env count).calls)[i]? = some c →
      c.seed = env.draws i + i * 1000) ∧
    (∀ env count i c, ((adjTraceV2 env count).calls)[i]? = some c →
      c.seed = env.draws i + i) := by
  refine ⟨?_, ?_, ?_⟩
  · intro env count i c hc
    rw [fusedLoopV1_calls_get env count count i c hc]
    rfl
  · intro env count i c hc
    have hcalls : (fusedTraceV2 env count).calls =
        (List.range count).map (fusedCallV2 env count) := by
      rw [fusedTraceV2, fusedLoopV2_eq]
    rw [hcalls, List.getElem?_map] at hc
    by_cases hi : i < count
    · rw [List.getElem?_range hi] at hc
      have hc2 : some (fusedCallV2 env count i) = some c := hc
      rw [← Option.some.inj hc2]
      rfl
    · rw [List.getElem?_eq_none (by simpa using Nat.le_of_not_lt hi)] at hc
      exact Option.noConfusion hc
  · intro env count i c hc
    have hcalls : (adjTraceV2 env count).calls =
        (List.range count).map (adjCallV2 env) := by
      rw [adjTraceV2, adjLoopV2_eq]
    rw [hcalls, List.getElem?_map] at hc
    by_cases hi : i < count
    · rw [List.getElem?_range hi] at hc
      have hc2 : some (adjCallV2 env i) = some c := hc
      rw [← Option.some.inj hc2]
      rfl
    · rw [List.getElem?_eq_none (by simpa using Nat.le_of_not_lt hi)] at hc
      exact Option.noConfusion hc

theorem c8_witness :
    (fusedCallV1 sampleEnvOk 2 1).seed = sampleEnvOk.draws 1 ∧
      (fusedCallV2 sampleEnvOk 2 1).seed = sampleEnvOk.draws 1 + 1 * 1000 ∧
      (adjCallV2 sampleEnvOk 1).seed = sampleEnvOk.draws 1 + 1 := by
  refine ⟨c8_amended_seed_formulas.1 sampleEnvOk 2 1 (fusedCallV1 sampleEnvOk 2 1) rfl,
    c8_amended_seed_formulas.2.1 sampleEnvOk 2 1 (fusedCallV2 sampleEnvOk 2 1) rfl,
    c8_amended_seed_formulas.2.2 sampleEnvOk 2 1 (adjCallV2 sampleEnvOk 1) rfl⟩

/-- C9: the external-service client is lazily initialized and cached: a
cached instance is returned unchanged on every later call (and a whole
sequence of later calls keeps returning that same instance); on first use a
present key and a successful construction populate the cache; a missing key
or a failed construction leaves the cache at none, so a later call attempts
initialization again — a previous failure never poisons the client. -/
theorem c9_lazy_client_init :
    (∀ env c, getGoogleAI (some c) env = (Except.ok c, some c)) ∧
    (∀ env k c, env.apiKey = some k → env.initResult = Except.ok c →
      getGoogleAI none env = (Except.ok c, some c)) ∧
    (∀ env, env.apiKey = none →
      getGoogleAI none env = (Except.error apiKeyMissingMsg, none)) ∧
    (∀ env k e, env.apiKey = some k → env.initResult = Except.error e →
      getGoogleAI none env = (Except.error (initFailedPrefix ++ e), none)) ∧
    (∀ c envs, runClientCalls (some c) envs =
      (envs.map (fun _ => Except.ok c), some c)) := by
  refine ⟨fun env c => rfl, ?_, ?_, ?_, ?_⟩
  · intro env k c h1 h2
    simp [getGoogleAI, h1, h2]
  · intro env h1
    simp [getGoogleAI, h1]
  · intro env k e h1 h2
    simp [getGoogleAI, h1, h2]
  · intro c envs
    induction envs with
    | nil => rfl
    | cons env rest ih =>
      show (Except.ok c :: (runClientCalls (some c) rest).1,
        (runClientCalls (some c) rest).2) = _
      rw [ih]
      rfl

theorem c9_witness :
    getGoogleAI none ⟨some "k", Except.ok 7⟩ = (Except.ok 7, some 7) ∧
      getGoogleAI none ⟨some "k", Except.error "x"⟩ =
        (Except.error (initFailedPrefix ++ "x"), none) ∧
      runClientCalls (some 7) [⟨none, Except.error "x"⟩, ⟨some "k", Except.ok 9⟩] =
        ([Except.ok 7, Except.ok 7], some 7) := by
  refine ⟨c9_lazy_client_init.2.1 ⟨some "k", Except.ok 7⟩ "k" 7 rfl rfl,
    c9_lazy_client_init.2.2.2.1 ⟨some "k", Except.error "x"⟩ "k" "x" rfl rfl, ?_⟩
  rw [c9_lazy_client_init.2.2.2.2 7
    [⟨none, Except.error "x"⟩, ⟨some "k", Except.ok 9⟩]]
  rfl

/-- C10: error-tag round trip at the orchestrator/panel boundary: tagging a
placeholder URI (free of the hash byte) with an URL-encoded message and
parsing it back the way FusionPanel does recovers exactly that URI and that
message, and the tag test classifies it as an error slot; a successful
data:<mime>;base64,<data> result never contains the "#error=" delimiter and
is classified as a success slot. -/
theorem c10_error_tag_round_trip :
    (∀ uri msg, 35 ∉ uri → (∀ b ∈ msg, b < 256) →
      parseSlot (tagSlot uri msg) = ⟨true, uri, msg⟩ ∧
      (findTag (tagSlot uri msg)).isSome = true) ∧
    (∀ mime data, 35 ∉ mime → 35 ∉ data →
      parseSlot (dataUri mime data) = ⟨false, dataUri mime data, []⟩ ∧
      (findTag (dataUri mime data)).isSome = false) := by
  constructor
  · intro uri msg hu hm
    refine ⟨parseSlot_tagged uri msg hu hm, ?_⟩
    rw [tagSlot, findTag_append uri (encodeURIComponentB msg) hu]
    rfl
  · intro mime data hm hd
    refine ⟨parseSlot_dataUri mime data hm hd, ?_⟩
    rw [findTag_none (dataUri mime data) (not_mem_dataUri_35 mime data hm hd)]
    rfl

theorem c10_witness :
    parseSlot (tagSlot fallbackPixel [230, 181, 139]) =
        ⟨true, fallbackPixel, [230, 181, 139]⟩ ∧
      parseSlot (dataUri [105, 109] [65, 66]) =
        ⟨false, dataUri [105, 109] [65, 66], []⟩ := by
  constructor
  · exact (c10_error_tag_round_trip.1 fallbackPixel [230, 181, 139]
      (by decide) (by decide)).1
  · exact (c10_error_tag_round_trip.2 [105, 109] [65, 66] (by decide) (by decide)).1

end NanoBanana
